import Mathlib

/-!
Verification development for the gemini_insights Home Assistant custom
integration.  The Python modules preprocessor.py, gemini_client.py and
sensor.py are shallowly embedded below: datetimes become epoch seconds
(Int), float sample values become rationals, Python dicts become
association lists, and raising code returns Except values.
-/

namespace GeminiInsights

/-! ## Time-Bucket Aggregator (preprocessor.py, _compute_long_term_stats) -/

/-- SLOT_SECONDS = 30 * 60 from preprocessor.py. -/
def SLOT_SECONDS : Int := 30 * 60

/-- SLOTS_PER_DAY = one day in seconds integer-divided by SLOT_SECONDS. -/
def SLOTS_PER_DAY : Nat := 86400 / 1800

/-- One row returned by statistics_during_period: a start timestamp
(epoch seconds) and an optional numeric mean (None for rows that carry
no numeric mean). -/
structure StatRow where
  start : Int
  mean : Option ℚ
deriving DecidableEq, Repr

/-- One output slot: its start timestamp and the optional rounded average. -/
structure Slot where
  slot_start : Int
  avg : Option ℚ
deriving DecidableEq, Repr

/-- Elapsed seconds since window start, integer-divided (floor, as the
Python // operator) by the bucket width. -/
def rowSlot (startTime : Int) (r : StatRow) : Int :=
  Int.fdiv (r.start - startTime) SLOT_SECONDS

/-- The 5-minute means the code appends to bucket i: rows whose computed
slot index equals i and whose mean is not None, in row order. -/
def bucketSamples (startTime : Int) (rows : List StatRow) (i : Nat) : List ℚ :=
  rows.filterMap (fun r => if rowSlot startTime r = (i : Int) then r.mean else none)

/-- Arithmetic mean of a list of rationals, as statistics.mean. -/
def listMean (l : List ℚ) : ℚ := l.sum / (l.length : ℚ)

/-- Nearest integer to a rational, computed as the floor of q + 1/2.
This models the rounding of the Python round builtin; the two differ
only on exact midpoints (Python rounds those to even), which no claim
exercises. -/
def roundRat (q : ℚ) : ℤ := Int.fdiv (2 * q.num + (q.den : Int)) (2 * (q.den : Int))

/-- Rounding to two decimal places, modelling round(x, 2). -/
def round2 (q : ℚ) : ℚ := ((roundRat (q * 100) : ℤ) : ℚ) / 100

/-- The slot entry the list comprehension builds at index i: label
start_time + i * SLOT_SECONDS, and the rounded bucket mean when the
bucket is non-empty, else None. -/
def mkSlot (startTime : Int) (rows : List StatRow) (i : Nat) : Slot :=
  { slot_start := startTime + (i : Int) * SLOT_SECONDS
  , avg := if bucketSamples startTime rows i = []
           then none
           else some (round2 (listMean (bucketSamples startTime rows i))) }

/-- Per-entity body of _compute_long_term_stats: when the fetched row list
is empty the fallback fills SLOTS_PER_DAY slots with None, otherwise the
rows are folded into buckets and averaged per bucket. -/
def computeEntitySlots (startTime : Int) (rows : List StatRow) : List Slot :=
  if rows = [] then
    (List.range SLOTS_PER_DAY).map
      (fun (i : ℕ) => { slot_start := startTime + (i : Int) * SLOT_SECONDS, avg := none })
  else
    (List.range SLOTS_PER_DAY).map (mkSlot startTime rows)

/-- The stats dict built by the entity loop when every per-entity fetch
returns normally: insertion order follows the configured entity list. -/
def computeLongTermStats (startTime : Int) (fetch : String → List StatRow)
    (entity_ids : List String) : List (String × List Slot) :=
  entity_ids.map (fun e => (e, computeEntitySlots startTime (fetch e)))

/-- The entity loop of _compute_long_term_stats with a fetch that can
raise: the loop body has no try/except, so the first raising fetch
propagates and aborts the whole aggregation. -/
def computeLongTermStatsE (startTime : Int)
    (fetch : String → Except String (List StatRow)) :
    List String → Except String (List (String × List Slot))
  | [] => Except.ok []
  | e :: rest =>
    match fetch e with
    | Except.error m => Except.error m
    | Except.ok rows =>
      match computeLongTermStatsE startTime fetch rest with
      | Except.error m => Except.error m
      | Except.ok stats => Except.ok ((e, computeEntitySlots startTime rows) :: stats)

/-- Window computation of _compute_long_term_stats: utcnow truncated to
midnight of the current UTC day gives end_time, and start_time is one day
earlier.  Returns (start_time, end_time) in epoch seconds. -/
def computeWindow (nowUtc : Int) : Int × Int :=
  let endTime := nowUtc - Int.emod nowUtc 86400
  (endTime - 86400, endTime)

/-- Modelled from the spec: the window the specification describes, ending
at the start of the current calendar day in host-local time truncated to
midnight, for a host whose fixed UTC offset is given in seconds.  Kept
only for comparison against computeWindow, which is what the code does. -/
def specLocalMidnightWindow (nowUtc offset : Int) : Int × Int :=
  let localNow := nowUtc + offset
  let endLocal := localNow - Int.emod localNow 86400
  let endTime := endLocal - offset
  (endTime - 86400, endTime)

/-! ## Action-Schema Builder (preprocessor.py, async_get_action_schema) -/

/-- Description record of one host service as delivered by
async_get_all_descriptions: an optional description and a field map
whose values carry optional descriptions. -/
structure ServiceDesc where
  description : Option String
  fields : List (String × Option String)
deriving DecidableEq, Repr

/-- The host service catalog: domains each holding named services. -/
abbrev ServiceCatalog := List (String × List (String × ServiceDesc))

/-- One entry of the built action list. -/
structure ActionEntry where
  domain : String
  service : String
  description : String
  fields : List (String × String)
deriving DecidableEq, Repr

/-- The _build loop of async_get_action_schema before serialization: every
(domain, service) pair of the catalog except services named reload, remove
or update, flattened in catalog order, with descriptions defaulted to the
empty string. -/
def buildActions (catalog : ServiceCatalog) : List ActionEntry :=
  catalog.flatMap (fun p =>
    p.2.filterMap (fun q =>
      if q.1 == "reload" || q.1 == "remove" || q.1 == "update" then
        none
      else
        some { domain := p.1
             , service := q.1
             , description := (q.2.description).getD ""
             , fields := q.2.fields.map (fun f => (f.1, (f.2).getD "")) }))

/-- Hex digit for low control characters in JSON escapes. -/
def hexDigit (n : Nat) : Char :=
  if n < 10 then Char.ofNat (48 + n) else Char.ofNat (87 + n)

/-- JSON string escaping as json.dumps performs it on the strings at hand:
backslash, double quote and control characters. -/
def jsonEscapeChar (c : Char) : String :=
  if c = Char.ofNat 34 then "\\\""
  else if c = Char.ofNat 92 then "\\\\"
  else if c.toNat < 32 then
    "\\u00" ++ String.mk [hexDigit (c.toNat / 16), hexDigit (c.toNat % 16)]
  else String.mk [c]

/-- A JSON string literal. -/
def jsonStr (s : String) : String :=
  "\"" ++ String.join (s.data.map jsonEscapeChar) ++ "\""

/-- Join with a separator, as str.join. -/
def joinSep (sep : String) : List String → String
  | [] => ""
  | [x] => x
  | x :: y :: rest => x ++ sep ++ joinSep sep (y :: rest)

/-- Serialization of one action entry with the compact separators
(",", ":") that json.dumps is called with. -/
def serializeAction (a : ActionEntry) : String :=
  "\x7b\"domain\":" ++ jsonStr a.domain
    ++ ",\"service\":" ++ jsonStr a.service
    ++ ",\"description\":" ++ jsonStr a.description
    ++ ",\"fields\":\x7b"
    ++ joinSep "," (a.fields.map (fun f => jsonStr f.1 ++ ":" ++ jsonStr f.2))
    ++ "\x7d\x7d"

/-- Serialization of the whole action list. -/
def serializeActions (l : List ActionEntry) : String :=
  "[" ++ joinSep "," (l.map serializeAction) ++ "]"

/-- The Action-Schema Builder end to end: enumerate, filter, serialize. -/
def actionSchemaOutput (catalog : ServiceCatalog) : String :=
  serializeActions (buildActions catalog)

/-! ## LLM Gateway (gemini_client.py, GeminiClient.get_insights) -/

/-- A function call carried by a response part: its name and its already
structured argument dict. -/
structure GenFunctionCall where
  name : String
  args : List (String × String)
deriving DecidableEq, Repr

/-- One content part of the first candidate: it may carry a function call. -/
structure GenPart where
  function_call : Option GenFunctionCall
deriving DecidableEq, Repr

/-- The shape of a Gemini response that get_insights inspects: the content
parts of the first candidate (none models a missing candidate list,
missing content, or empty parts), the optional direct text, and the
textual rendering str(response) stored as raw_text. -/
structure GenResponse where
  content_parts : List GenPart
  text : Option String
  repr_text : String
deriving DecidableEq, Repr

/-- Dict lookup presence, as the Python in operator on a dict. -/
def hasKey (k : String) (d : List (String × String)) : Bool :=
  d.any (fun p => p.1 == k)

/-- Dict assignment d[k] = v: overwrite in place when the key exists,
append otherwise. -/
def dictSet (d : List (String × String)) (k v : String) : List (String × String) :=
  if hasKey k d then d.map (fun p => if p.1 == k then (p.1, v) else p)
  else d ++ [(k, v)]

/-- The parsing section inside the try of get_insights, lines 122 to 155:
guard for content parts, find the first part holding a function call, fall
back to direct text, reject unexpected function names, and otherwise
return the structured args with raw_text set to str(response). -/
def parseResponse (resp : GenResponse) : List (String × String) :=
  if resp.content_parts = [] then
    [("insights", "No content parts in response."), ("alerts", ""),
     ("actions", ""), ("raw_text", resp.repr_text)]
  else
    match resp.content_parts.findSome? (fun p => p.function_call) with
    | none =>
      match resp.text with
      | some t =>
        if t = "" then
          [("insights", "No function call in response and no fallback text."),
           ("alerts", ""), ("actions", ""), ("raw_text", resp.repr_text)]
        else
          [("insights", t), ("alerts", "No function call; direct text response."),
           ("actions", ""), ("raw_text", t)]
      | none =>
        [("insights", "No function call in response and no fallback text."),
         ("alerts", ""), ("actions", ""), ("raw_text", resp.repr_text)]
    | some fc =>
      if fc.name ≠ "generate_insights" then
        [("insights", "Unexpected function call: " ++ fc.name), ("alerts", ""),
         ("actions", ""), ("raw_text", resp.repr_text)]
      else
        dictSet fc.args "raw_text" resp.repr_text

/-- GeminiClient.get_insights: the prompt format step runs before the try
block, so a raising format propagates; every exception raised by the
network call or while working on the response is caught by the except
branch, which logs and returns None.  The network call outcome (a
response, or the exception it raised) is passed in as callResult. -/
def get_insights (fmt : Except String String)
    (callResult : Except String GenResponse) :
    Except String (Option (List (String × String))) :=
  match fmt with
  | Except.error e => Except.error e
  | Except.ok _ =>
    match callResult with
    | Except.error _ => Except.ok none
    | Except.ok resp => Except.ok (some (parseResponse resp))

/-! ## Update Coordinator (sensor.py, async_update_data) -/

/-- Outcome of the executor job running gemini_client.get_insights: it
returned a dict, returned None, or raised. -/
inductive GatewayOutcome where
  | returned (r : Option (List (String × String)))
  | raised (msg : String)
deriving DecidableEq, Repr

/-- The placeholder returned when no entities are configured. -/
def noEntitiesResult : List (String × String) :=
  [("insights", "No entities configured."), ("alerts", ""), ("summary", "")]

/-- The placeholder returned when get_insights yields no usable result. -/
def errorResult : List (String × String) :=
  [("insights", "Error fetching insights"), ("alerts", "Error"),
   ("summary", "Error"), ("raw_text", "Error fetching insights")]

/-- The placeholder returned when the call raises, carrying the text of
the exception. -/
def exceptionResult (e : String) : List (String × String) :=
  [("insights", "Exception: " ++ e), ("alerts", "Exception"),
   ("summary", "Exception"), ("raw_text", "Exception: " ++ e)]

/-- async_update_data reduced to what the published state depends on: the
configured entity list and the gateway outcome.  The data assembly between
the entity check and the gateway call (history fetch and the
preprocess_sensor_data helper, which is not part of the sources) only
shapes the prompt, never the returned dict or whether the gateway runs.
The returned pair counts gateway invocations and carries the dict the
coordinator publishes.  Python truthiness makes an empty entity list take
the early return and an empty dict fall to the error branch. -/
def async_update_data (entity_ids : List String) (g : GatewayOutcome) :
    Nat × List (String × String) :=
  if entity_ids.isEmpty then
    (0, noEntitiesResult)
  else
    match g with
    | GatewayOutcome.raised e => (1, exceptionResult e)
    | GatewayOutcome.returned none => (1, errorResult)
    | GatewayOutcome.returned (some d) =>
      if d.isEmpty then (1, errorResult)
      else if hasKey "raw_text" d then (1, d)
      else (1, d ++ [("raw_text", "Raw text not available.")])

/-- GeminiRawTextSensor.native_value over the coordinator data. -/
def rawTextSensorValue (data : Option (List (String × String))) : String :=
  match data with
  | none => "Initializing..."
  | some d => ((d.lookup ("raw_text")).getD ("Raw text not available"))

/-! ## Action Executor (configured by const.py, absent from the sources) -/

/-- A Proposed Action as the spec defines it: domain, operation name,
string-encoded parameter payload, confidence in [0,1].  Domain and
operation are optional so that a malformed action (missing one) is
representable. -/
structure ProposedAction where
  domain : Option String
  service : Option String
  service_data : String
  confidence : ℚ
deriving DecidableEq, Repr

/-- Well-formedness of a proposed action per the spec: domain and
operation are both present, non-empty strings. -/
def wellFormedAction (a : ProposedAction) : Bool :=
  match a.domain, a.service with
  | some d, some s => !(d == "") && !(s == "")
  | _, _ => false

/-- Modelled from the spec: the Action Executor of the Applying step is
missing from the sources; only its configuration keys
CONF_AUTO_EXECUTE_ACTIONS and CONF_ACTION_CONFIDENCE_THRESHOLD are
declared in const.py.  Per the spec, when automatic execution is enabled,
each Proposed Action whose confidence is at or above the configured
threshold and whose domain and operation are well-formed strings receives
one service invocation; the others are only reported.  The returned list
is the sequence of invocations issued. -/
def executeActions (autoExecute : Bool) (threshold : ℚ)
    (proposed : List ProposedAction) : List ProposedAction :=
  if autoExecute then
    proposed.filter (fun a => decide (threshold ≤ a.confidence) && wellFormedAction a)
  else []

/-! ## Helper lemmas -/

theorem computeEntitySlots_eq_map (st : Int) (rows : List StatRow) :
    computeEntitySlots st rows = (List.range SLOTS_PER_DAY).map (mkSlot st rows) := by
  unfold computeEntitySlots
  by_cases h : rows = []
  · subst h
    rw [if_pos rfl]
    apply List.map_congr_left
    intro i _
    simp [mkSlot, bucketSamples]
  · rw [if_neg h]

theorem getD_range_map {α : Type} (f : ℕ → α) (d : α) {i n : ℕ} (h : i < n) :
    ((List.range n).map f).getD i d = f i := by
  rw [List.getD_eq_getElem?_getD, List.getElem?_map, List.getElem?_range h]
  rfl

theorem slot_avg_eq (st : Int) (rows : List StatRow) (i : ℕ) (h : i < SLOTS_PER_DAY) :
    ((computeEntitySlots st rows).getD i ⟨0, none⟩).avg =
      if bucketSamples st rows i = [] then none
      else some (round2 (listMean (bucketSamples st rows i))) := by
  rw [computeEntitySlots_eq_map, getD_range_map _ _ h]
  rfl

theorem slot_start_eq (st : Int) (rows : List StatRow) (i : ℕ) (h : i < SLOTS_PER_DAY) :
    ((computeEntitySlots st rows).getD i ⟨0, none⟩).slot_start =
      st + (i : Int) * SLOT_SECONDS := by
  rw [computeEntitySlots_eq_map, getD_range_map _ _ h]
  rfl

theorem bucketSamples_ne_nil_iff (st : Int) (rows : List StatRow) (i : ℕ) :
    bucketSamples st rows i ≠ [] ↔
      ∃ r ∈ rows, r.mean ≠ none ∧ rowSlot st r = (i : Int) := by
  rw [Ne, bucketSamples, List.filterMap_eq_nil_iff]
  push_neg
  constructor
  · rintro ⟨r, hr, hne⟩
    by_cases hc : rowSlot st r = (i : Int)
    · refine ⟨r, hr, ?_, hc⟩
      intro hm
      apply hne
      rw [if_pos hc, hm]
    · exact absurd (if_neg hc) hne
  · rintro ⟨r, hr, hm, hc⟩
    refine ⟨r, hr, ?_⟩
    rw [if_pos hc]
    exact fun h => hm h

theorem round2_intCast (n : ℤ) : round2 ((n : ℤ) : ℚ) = ((n : ℤ) : ℚ) := by
  unfold round2 roundRat
  have h1 : ((n : ℤ) : ℚ) * 100 = ((n * 100 : ℤ) : ℚ) := by push_cast; ring
  rw [h1, Rat.num_intCast, Rat.den_intCast]
  rw [Int.fdiv_eq_ediv _ (by norm_num)]
  have h2 : (2 * (n * 100) + ((1 : ℕ) : ℤ)) / (2 * ((1 : ℕ) : ℤ)) = n * 100 := by
    push_cast
    omega
  rw [h2]
  push_cast
  ring

/-! ## Claim theorems -/

/-- C1: for every set of configured entity references and every sample
density, the aggregator returns, for each entity, a sequence of exactly
SLOTS_PER_DAY = 48 slot entries, and a slot average is non-null exactly
when at least one numeric sample landed in that slot; zero samples for an
entity yield 48 all-null slots. -/
theorem c1_forty_eight_slots (st : Int) (fetch : String → List StatRow)
    (ids : List String) (e : String) (he : e ∈ ids) :
    (e, computeEntitySlots st (fetch e)) ∈ computeLongTermStats st fetch ids ∧
    (computeEntitySlots st (fetch e)).length = SLOTS_PER_DAY ∧
    ∀ i, i < SLOTS_PER_DAY →
      (((computeEntitySlots st (fetch e)).getD i ⟨0, none⟩).avg ≠ none ↔
        ∃ r ∈ fetch e, r.mean ≠ none ∧ rowSlot st r = (i : Int)) := by
  refine ⟨?_, ?_, ?_⟩
  · unfold computeLongTermStats
    exact List.mem_map_of_mem _ he
  · rw [computeEntitySlots_eq_map]
    simp
  · intro i hi
    rw [slot_avg_eq _ _ _ hi, ← bucketSamples_ne_nil_iff]
    by_cases hb : bucketSamples st (fetch e) i = [] <;> simp [hb]

/-- Closed instance of c1_forty_eight_slots at one entity with zero
samples. -/
theorem c1_forty_eight_slots_witness :
    ("sensor.x", computeEntitySlots 0 ((fun _ => []) "sensor.x")) ∈
        computeLongTermStats 0 (fun _ => []) ["sensor.x"] ∧
    (computeEntitySlots 0 ((fun _ => []) "sensor.x")).length = SLOTS_PER_DAY ∧
    ∀ i, i < SLOTS_PER_DAY →
      (((computeEntitySlots 0 ((fun _ => []) "sensor.x")).getD i ⟨0, none⟩).avg ≠ none ↔
        ∃ r ∈ (fun (_ : String) => ([] : List StatRow)) "sensor.x",
          r.mean ≠ none ∧ rowSlot 0 r = (i : Int)) :=
  c1_forty_eight_slots 0 (fun _ => []) ["sensor.x"] "sensor.x" (by simp)

/-- The synthetic series of the round-trip scenario: one entity, samples
in bucket 0 with values 10 and 20, a sample in bucket 1 with value 5, and
a row landing in bucket 2 that carries no numeric mean. -/
def c2rows : List StatRow :=
  [⟨0, some 10⟩, ⟨600, some 20⟩, ⟨1800, some 5⟩, ⟨3600, none⟩]

theorem c2_bucket_zero : bucketSamples 0 c2rows 0 = [10, 20] := rfl

theorem c2_bucket_one : bucketSamples 0 c2rows 1 = [5] := rfl

theorem c2_bucket_empty (i : ℕ) (h0 : i ≠ 0) (h1 : i ≠ 1) :
    bucketSamples 0 c2rows i = [] := by
  rw [bucketSamples, List.filterMap_eq_nil_iff]
  intro r hr
  simp only [c2rows, List.mem_cons, List.not_mem_nil, or_false] at hr
  have s0 : rowSlot 0 (⟨0, some 10⟩ : StatRow) = 0 := by decide
  have s1 : rowSlot 0 (⟨600, some 20⟩ : StatRow) = 0 := by decide
  have s2 : rowSlot 0 (⟨1800, some 5⟩ : StatRow) = 1 := by decide
  rcases hr with rfl | rfl | rfl | rfl
  · rw [s0, if_neg (by omega)]
  · rw [s1, if_neg (by omega)]
  · rw [s2, if_neg (by omega)]
  · split <;> rfl

/-- C2: the aggregator folds samples into 30-minute buckets by
integer-dividing elapsed seconds since window start by the bucket width
and takes the rounded arithmetic mean per bucket; on the synthetic series
with bucket values 10 and 20, then 5, then none, the averages are 15, 5
and null at those indices and null at every other index. -/
theorem c2_bucket_fold :
    (∀ (st : Int) (rows : List StatRow) (i : ℕ), i < SLOTS_PER_DAY →
      ((computeEntitySlots st rows).getD i ⟨0, none⟩).avg =
        if bucketSamples st rows i = [] then none
        else some (round2 (listMean (bucketSamples st rows i)))) ∧
    (∀ i : ℕ, i < SLOTS_PER_DAY →
      ((computeEntitySlots 0 c2rows).getD i ⟨0, none⟩).avg =
        if i = 0 then some 15 else if i = 1 then some 5 else none) := by
  constructor
  · exact slot_avg_eq
  · intro i hi
    rw [slot_avg_eq _ _ _ hi]
    by_cases h0 : i = 0
    · subst h0
      rw [c2_bucket_zero, if_neg (by simp)]
      have hm : listMean [(10 : ℚ), 20] = ((15 : ℤ) : ℚ) := by
        norm_num [listMean]
      rw [hm, round2_intCast]
      norm_num
    · by_cases h1 : i = 1
      · subst h1
        rw [c2_bucket_one, if_neg (by simp)]
        have hm : listMean [(5 : ℚ)] = ((5 : ℤ) : ℚ) := by
          norm_num [listMean]
        rw [hm, round2_intCast]
        norm_num
      · rw [c2_bucket_empty i h0 h1]
        simp [h0, h1]

/-- Closed instance of c2_bucket_fold: the slot 0 average of the
synthetic series is 15. -/
theorem c2_bucket_fold_witness :
    ((computeEntitySlots 0 c2rows).getD 0 ⟨0, none⟩).avg = some 15 := by
  have h := c2_bucket_fold.2 0 (by decide)
  simpa using h

/-- A fetch that raises for one entity and returns one row for the rest. -/
def c3fetch : String → Except String (List StatRow) :=
  fun e => if e = "sensor.b" then Except.error ("boom") else Except.ok [⟨0, some 1⟩]

/-- C3 counterexample: the stats loop has no per-entity exception
handling, so when retrieval raises for sensor.b the whole aggregation
raises and no entity receives any slots, contradicting the claim that the
failing entity gets 48 null slots while the others keep their results. -/
theorem c3_counterexample :
    computeLongTermStatsE 0 c3fetch ["sensor.a", "sensor.b"] = Except.error ("boom") := by
  rfl

/-- C3 amended: a completed aggregation requires that retrieval succeeded
for every configured entity; any per-entity exception propagates out of
the aggregator, so the result exists only when no entity raised, and then
every entity appears with its computed slots. -/
theorem c3_error_propagates (st : Int) (f : String → Except String (List StatRow))
    (ids : List String) (stats : List (String × List Slot))
    (hok : computeLongTermStatsE st f ids = Except.ok stats)
    (e : String) (he : e ∈ ids) :
    (f e).toOption ≠ none ∧
    (e, computeEntitySlots st ((f e).toOption.getD [])) ∈ stats := by
  induction ids generalizing stats with
  | nil => cases he
  | cons a t ih =>
    rw [computeLongTermStatsE] at hok
    cases hfa : f a with
    | error m => rw [hfa] at hok; cases hok
    | ok rows =>
      rw [hfa] at hok
      cases hrec : computeLongTermStatsE st f t with
      | error m => rw [hrec] at hok; cases hok
      | ok stats2 =>
        rw [hrec] at hok
        have hstats : (a, computeEntitySlots st rows) :: stats2 = stats :=
          Except.ok.inj hok
        rcases List.mem_cons.mp he with rfl | het
        · refine ⟨by rw [hfa]; simp [Except.toOption], ?_⟩
          rw [← hstats, hfa]
          simp [Except.toOption]
        · obtain ⟨h1, h2⟩ := ih stats2 hrec het
          exact ⟨h1, by rw [← hstats]; exact List.mem_cons_of_mem _ h2⟩

/-- Closed instance of c3_error_propagates with one entity whose fetch
succeeds with no rows. -/
theorem c3_error_propagates_witness :
    ((fun (_ : String) => (Except.ok [] : Except String (List StatRow))) "sensor.a").toOption
        ≠ none ∧
    ("sensor.a",
      computeEntitySlots 0
        (((fun (_ : String) =>
            (Except.ok [] : Except String (List StatRow))) "sensor.a").toOption.getD [])) ∈
      [("sensor.a", computeEntitySlots 0 [])] :=
  c3_error_propagates 0 (fun _ => Except.ok []) ["sensor.a"]
    [("sensor.a", computeEntitySlots 0 [])] (by rfl) "sensor.a" (by simp)

/-- C8 counterexample: at 01:00 UTC on a host two hours east of UTC, the
window end computed by the code is midnight UTC (epoch second 0 of that
day), not the start of the current host-local day (epoch second -7200),
so the lookback window does not end at host-local midnight. -/
theorem c8_counterexample :
    (computeWindow 3600).2 = 0 ∧
    (specLocalMidnightWindow 3600 7200).2 = -7200 ∧
    (computeWindow 3600).2 ≠ (specLocalMidnightWindow 3600 7200).2 := by
  refine ⟨rfl, rfl, ?_⟩
  decide

/-- C8 amended: the 24-hour lookback window ends at the start of the
current UTC day (utcnow truncated to midnight UTC), slot 0 starts exactly
24 hours before that instant, and slot i is labelled window start plus i
times 30 minutes. -/
theorem c8_window_utc_midnight (nowUtc : Int) (rows : List StatRow) (i : ℕ)
    (hi : i < SLOTS_PER_DAY) :
    (computeWindow nowUtc).2 % 86400 = 0 ∧
    (computeWindow nowUtc).2 ≤ nowUtc ∧
    nowUtc < (computeWindow nowUtc).2 + 86400 ∧
    (computeWindow nowUtc).1 = (computeWindow nowUtc).2 - 86400 ∧
    ((computeEntitySlots (computeWindow nowUtc).1 rows).getD i ⟨0, none⟩).slot_start =
      (computeWindow nowUtc).1 + (i : Int) * SLOT_SECONDS := by
  refine ⟨?_, ?_, ?_, ?_, slot_start_eq _ _ _ hi⟩
  · show (nowUtc - nowUtc % 86400) % 86400 = 0
    omega
  · show nowUtc - nowUtc % 86400 ≤ nowUtc
    omega
  · show nowUtc < nowUtc - nowUtc % 86400 + 86400
    omega
  · rfl

/-- Closed instance of c8_window_utc_midnight at 01:00 UTC and slot 0. -/
theorem c8_window_utc_midnight_witness :
    (computeWindow 3600).2 % 86400 = 0 ∧
    (computeWindow 3600).2 ≤ 3600 ∧
    (3600 : Int) < (computeWindow 3600).2 + 86400 ∧
    (computeWindow 3600).1 = (computeWindow 3600).2 - 86400 ∧
    ((computeEntitySlots (computeWindow 3600).1 []).getD 0 ⟨0, none⟩).slot_start =
      (computeWindow 3600).1 + (0 : Int) * SLOT_SECONDS :=
  c8_window_utc_midnight 3600 [] 0 (by decide)

/-- A host catalog offering the restart service of the homeassistant
domain, which the spec places on the deny-list. -/
def c4catalog : ServiceCatalog :=
  [("homeassistant", [("restart", ⟨some ("Restart"), []⟩)]),
   ("notify", [("send_message", ⟨some ("Send"), []⟩)])]

/-- C4 counterexample: the code only filters reload, remove and update,
so a catalog carrying restart (and the notify domain) passes straight
through into the serialized output. -/
theorem c4_counterexample :
    (⟨"homeassistant", "restart", "Restart", []⟩ : ActionEntry) ∈ buildActions c4catalog ∧
    (⟨"notify", "send_message", "Send", []⟩ : ActionEntry) ∈ buildActions c4catalog ∧
    actionSchemaOutput c4catalog =
      "[\x7b\"domain\":\"homeassistant\",\"service\":\"restart\",\"description\":\"Restart\",\"fields\":\x7b\x7d\x7d,\x7b\"domain\":\"notify\",\"service\":\"send_message\",\"description\":\"Send\",\"fields\":\x7b\x7d\x7d]" := by
  refine ⟨?_, ?_, ?_⟩
  · decide
  · decide
  · rfl

/-- C4 amended: for every host catalog, the serialized action schema
never contains an operation named reload, remove or update; operations
named restart or stop and operations of the notification domain are not
filtered and can appear. -/
theorem c4_deny_list (catalog : ServiceCatalog) (a : ActionEntry)
    (ha : a ∈ buildActions catalog) :
    ¬(a.service = "reload" ∨ a.service = "remove" ∨ a.service = "update") := by
  unfold buildActions at ha
  rw [List.mem_flatMap] at ha
  obtain ⟨p, _, ha⟩ := ha
  rw [List.mem_filterMap] at ha
  obtain ⟨q, _, hqa⟩ := ha
  by_cases hg : (q.1 == "reload" || q.1 == "remove" || q.1 == "update") = true
  · rw [if_pos hg] at hqa
    cases hqa
  · rw [if_neg hg] at hqa
    have hsrv : a.service = q.1 := by
      cases hqa
      rfl
    simp only [Bool.or_eq_true, beq_iff_eq, not_or] at hg
    rw [hsrv]
    push_neg
    exact ⟨hg.1.1, hg.1.2, hg.2⟩

/-- Closed instance of c4_deny_list on a catalog holding one allowed
service. -/
theorem c4_deny_list_witness :
    ¬((⟨"light", "turn_on", "", []⟩ : ActionEntry).service = "reload" ∨
      (⟨"light", "turn_on", "", []⟩ : ActionEntry).service = "remove" ∨
      (⟨"light", "turn_on", "", []⟩ : ActionEntry).service = "update") :=
  c4_deny_list [("light", [("turn_on", ⟨none, []⟩)])]
    ⟨"light", "turn_on", "", []⟩ (by decide)

/-- C9: the Action-Schema Builder is a pure function of the host catalog,
so two calls with an unchanged catalog yield byte-identical serialized
output. -/
theorem c9_schema_idempotent (c1 c2 : ServiceCatalog) (h : c1 = c2) :
    actionSchemaOutput c1 = actionSchemaOutput c2 := by
  rw [h]

/-- Closed instance of c9_schema_idempotent on a concrete catalog. -/
theorem c9_schema_idempotent_witness :
    actionSchemaOutput [("light", [("turn_on", ⟨none, []⟩)])] =
      actionSchemaOutput [("light", [("turn_on", ⟨none, []⟩)])] :=
  c9_schema_idempotent [("light", [("turn_on", ⟨none, []⟩)])]
    [("light", [("turn_on", ⟨none, []⟩)])] rfl

/-- C5: with automatic execution enabled, a proposed action below the
configured confidence threshold is never passed to the service-invocation
path, and one at or above the threshold with well-formed domain and
operation is attempted exactly once per occurrence in the proposal list. -/
theorem c5_confidence_gate (threshold : ℚ) (proposed : List ProposedAction)
    (a : ProposedAction) :
    (a.confidence < threshold → a ∉ executeActions true threshold proposed) ∧
    (threshold ≤ a.confidence → wellFormedAction a = true →
      (executeActions true threshold proposed).count a = proposed.count a) := by
  constructor
  · intro hlt hmem
    unfold executeActions at hmem
    rw [if_pos rfl, List.mem_filter] at hmem
    have h2 := hmem.2
    simp only [Bool.and_eq_true, decide_eq_true_eq] at h2
    exact absurd h2.1 (not_le.mpr hlt)
  · intro hge hwf
    unfold executeActions
    rw [if_pos rfl]
    exact List.count_filter (by simp [hge, hwf])

/-- Closed instance of c5_confidence_gate: a well-formed action with
confidence 1 against threshold 0 is attempted exactly once. -/
theorem c5_confidence_gate_witness :
    (executeActions true 0 [⟨some ("light"), some ("turn_on"), "", 1⟩]).count
        ⟨some ("light"), some ("turn_on"), "", 1⟩ =
      ([⟨some ("light"), some ("turn_on"), "", 1⟩] :
        List ProposedAction).count ⟨some ("light"), some ("turn_on"), "", 1⟩ :=
  (c5_confidence_gate 0 [⟨some ("light"), some ("turn_on"), "", 1⟩]
    ⟨some ("light"), some ("turn_on"), "", 1⟩).2 zero_le_one (by decide)

/-- C6: with an empty configured entity list the update cycle invokes the
gateway zero times and publishes the fixed no-entities placeholder,
whatever the gateway would have produced. -/
theorem c6_no_entities (g : GatewayOutcome) :
    async_update_data [] g = (0, noEntitiesResult) := rfl

/-- C7: every exception raised by the network call or while working on
the response is confined to the try block of get_insights: the call
returns None instead of raising, and a parsed response is returned
without raising either. -/
theorem c7_gateway_never_raises (p : String) (e : String) (resp : GenResponse) :
    get_insights (Except.ok p) (Except.error e) = Except.ok none ∧
    get_insights (Except.ok p) (Except.ok resp) =
      Except.ok (some (parseResponse resp)) :=
  ⟨rfl, rfl⟩

theorem lookup_isSome_of_hasKey (k : String) (d : List (String × String))
    (h : hasKey k d = true) : (d.lookup k).isSome = true := by
  induction d with
  | nil => cases h
  | cons p rest ih =>
    simp only [hasKey, List.any_cons, Bool.or_eq_true, beq_iff_eq] at h
    cases hq : (k == p.1) with
    | true =>
      cases p
      simp [List.lookup, hq]
    | false =>
      cases p with
      | mk k2 v2 =>
        simp only [List.lookup, hq]
        apply ih
        rcases h with h1 | h2
        · rw [h1] at hq
          simp at hq
        · exact h2

/-- C10: in every cycle that reaches the gateway branch, the published
dict carries a raw_text key on all four paths, and the raw-response
sensor reads exactly that entry. -/
theorem c10_raw_text_always_present (es : List String) (g : GatewayOutcome)
    (hne : es ≠ []) :
    hasKey ("raw_text") (async_update_data es g).2 = true ∧
    (((async_update_data es g).2).lookup ("raw_text")).isSome = true ∧
    rawTextSensorValue (some (async_update_data es g).2) =
      (((async_update_data es g).2).lookup ("raw_text")).getD
        ("Raw text not available") := by
  have hne2 : es.isEmpty = false := by
    cases es with
    | nil => exact absurd rfl hne
    | cons a t => rfl
  have key : hasKey ("raw_text") (async_update_data es g).2 = true := by
    unfold async_update_data
    rw [if_neg (by rw [hne2]; exact Bool.false_ne_true)]
    cases g with
    | raised e => simp [hasKey, exceptionResult]
    | returned r =>
      cases r with
      | none => simp [hasKey, errorResult]
      | some d =>
        dsimp only
        by_cases hd : d.isEmpty
        · rw [if_pos hd]
          simp [hasKey, errorResult]
        · rw [if_neg hd]
          by_cases hk : hasKey ("raw_text") d = true
          · rw [if_pos hk]
            exact hk
          · rw [if_neg hk]
            simp [hasKey, List.any_append]
  exact ⟨key, lookup_isSome_of_hasKey _ _ key, rfl⟩

/-- Closed instance of c10_raw_text_always_present on the path where the
gateway returns None. -/
theorem c10_raw_text_witness :
    hasKey ("raw_text")
        (async_update_data ["sensor.x"] (GatewayOutcome.returned none)).2 = true ∧
    (((async_update_data ["sensor.x"] (GatewayOutcome.returned none)).2).lookup
        ("raw_text")).isSome = true ∧
    rawTextSensorValue
        (some (async_update_data ["sensor.x"] (GatewayOutcome.returned none)).2) =
      (((async_update_data ["sensor.x"] (GatewayOutcome.returned none)).2).lookup
        ("raw_text")).getD ("Raw text not available") :=
  c10_raw_text_always_present ["sensor.x"] (GatewayOutcome.returned none) (by simp)

end GeminiInsights
